import Mathlib

/-
Verification of the lw_webdriver WebDriver client (src/src/session.rs,
src/src/tab.rs) against its specification. The JSON value type mirrors the
`json` crate's `JsonValue` as the source uses it: field lookup and array
indexing return `Null` on absence or on a non-container, and `to_string()`
renders a string value unquoted and `Null` as "null". HTTP round trips are
modelled by their outcome as the command handlers observe it (transport
failure, unreadable body text, unparsable body, or a parsed JSON body),
matching the spec's treatment of the HTTP transport and JSON parser as
external collaborators.
-/

inductive Json where
  | null
  | bool (b : Bool)
  | num (n : Int)
  | str (s : String)
  | arr (xs : List Json)
  | obj (fields : List (String × Json))

namespace Json

/-- Field lookup `j["k"]` as in the `json` crate: on an object, the value of
the first field named `k` (`Null` when absent); `Null` on every other
variant. -/
def get (j : Json) (k : String) : Json :=
  match j with
  | .obj fs => getFields fs
  | _ => .null
where
  getFields : List (String × Json) → Json
    | [] => .null
    | (k1, v) :: rest => if k1 = k then v else getFields rest

/-- Array indexing `j[i]`: the i-th element of an array, `Null` when out of
range or on a non-array. -/
def getIdx (j : Json) (i : Nat) : Json :=
  match j with
  | .arr xs => (xs.get? i).getD .null
  | _ => .null

def isNull : Json → Bool
  | .null => true
  | _ => false

def isString : Json → Bool
  | .str _ => true
  | _ => false

def isNumber : Json → Bool
  | .num _ => true
  | _ => false

/-- `as_usize()`: a non-negative number converts, everything else is `none`. -/
def asUsize : Json → Option Nat
  | .num n => if 0 ≤ n then some n.toNat else none
  | _ => none

/-- JSON serialization (the `json` crate's `dump`). -/
def dump : Json → String
  | .null => "null"
  | .bool true => "true"
  | .bool false => "false"
  | .num n => toString n
  | .str s => "\"" ++ s ++ "\""
  | .arr xs => "[" ++ dumpElems xs ++ "]"
  | .obj fs => "\x7b" ++ dumpFields fs ++ "\x7d"
where
  dumpElems : List Json → String
    | [] => ""
    | [x] => dump x
    | x :: rest => dump x ++ "," ++ dumpElems rest
  dumpFields : List (String × Json) → String
    | [] => ""
    | [(k, v)] => "\"" ++ k ++ "\":" ++ dump v
    | (k, v) :: rest => "\"" ++ k ++ "\":" ++ dump v ++ "," ++ dumpFields rest

/-- `to_string()` on a `JsonValue` (its `Display`): a string renders unquoted,
`Null` renders as "null", containers render as JSON text. -/
def toStr : Json → String
  | .str s => s
  | j => j.dump

/-- Number of occurrences of `k` as an object key anywhere in the value. -/
def countKey (k : String) : Json → Nat
  | .obj fs => countKeyFields fs
  | .arr xs => countKeyElems xs
  | _ => 0
where
  countKeyFields : List (String × Json) → Nat
    | [] => 0
    | (k1, v) :: rest => (if k1 = k then 1 else 0) + countKey k v + countKeyFields rest
  countKeyElems : List Json → Nat
    | [] => 0
    | v :: rest => countKey k v + countKeyElems rest

/-- Length of an array value, 0 on a non-array. -/
def arrLen : Json → Nat
  | .arr xs => xs.length
  | _ => 0

end Json

/-- Modelled from the spec: the error taxonomy of the crate (`error.rs` is not
under `src/`). Spec section 7 lists `UnsupportedPlatform`, `FailedRequest`,
`InvalidResponse`, `NoSuchWindow`, `NoSuchElement`, a named variant for every
other WebDriver wire error string (represented here by `OtherWireError`
carrying that string) and `Custom` for locally raised conditions. -/
inductive WebdriverError where
  | UnsupportedPlatform
  | FailedRequest
  | InvalidResponse
  | NoSuchWindow
  | NoSuchElement
  | OtherWireError (wire : String)
  | Custom (msg : String)
deriving DecidableEq

/-- Modelled from the spec: the wire-error mapping `WebdriverError::from` (in
the missing `error.rs`), which maps each WebDriver error string to its named
variant; the claims depend on "no such element" and "no such window". -/
def WebdriverError.fromWire (s : String) : WebdriverError :=
  if s = "no such element" then .NoSuchElement
  else if s = "no such window" then .NoSuchWindow
  else .OtherWireError s

/-- Outcome of one HTTP round trip as a command handler observes it: the
request itself failed (`res` was `Err`), the body text was unreadable
(`res.text()` / `res.as_str()` was `Err`), the text failed `json::parse`, or
the text parsed to a JSON body. -/
inductive Response where
  | transportFail
  | noText
  | unparsable
  | body (j : Json)

open Json WebdriverError

/-- Read-response block of `Session::new_session` (src/src/session.rs lines
202-227): a string `value.sessionId` is success carrying the session id, a
string `value.error` maps through the wire-error table, any other body is
`InvalidResponse`, and a transport failure is `FailedRequest`. -/
def new_session_classify (r : Response) : Except WebdriverError String :=
  match r with
  | .transportFail => .error .FailedRequest
  | .noText => .error .InvalidResponse
  | .unparsable => .error .InvalidResponse
  | .body j =>
    if ((j.get "value").get "sessionId").isString then
      .ok ((j.get "value").get "sessionId").toStr
    else if ((j.get "value").get "error").isString then
      .error (WebdriverError.fromWire ((j.get "value").get "error").toStr)
    else .error .InvalidResponse

/-- The tab-collection loop of `Session::get_all_tabs` (src/src/session.rs
lines 257-263), translated literally: the `while` tests `handles[i]`, then the
body increments `i` and pushes `handles[i].to_string()`. The loop always
terminates (for an array the test is false at the latest at index `arrLen`,
and instantly on a non-array), so running it with `arrLen + 1` fuel from
`i = 0` is exact. -/
def collectHandles (handles : Json) (i fuel : Nat) : List String :=
  match fuel with
  | 0 => []
  | fuel' + 1 =>
    if (handles.getIdx i).isNull then []
    else (handles.getIdx (i + 1)).toStr :: collectHandles handles (i + 1) fuel'

/-- Read-response block of `Session::get_all_tabs` (src/src/session.rs lines
252-283): a non-null `value.handles` is success carrying the ids collected by
the loop, a string `value.error` maps through the wire-error table, any other
body is `InvalidResponse`, and a transport failure is `FailedRequest`. -/
def get_all_tabs_classify (r : Response) : Except WebdriverError (List String) :=
  match r with
  | .transportFail => .error .FailedRequest
  | .noText => .error .InvalidResponse
  | .unparsable => .error .InvalidResponse
  | .body j =>
    if !((j.get "value").get "handles").isNull then
      .ok (collectHandles ((j.get "value").get "handles") 0
            (((j.get "value").get "handles").arrLen + 1))
    else if ((j.get "value").get "error").isString then
      .error (WebdriverError.fromWire ((j.get "value").get "error").toStr)
    else .error .InvalidResponse

/-- Read-response block of `Session::get_selected_tab_id` (src/src/session.rs
lines 307-331): a string `value` is success carrying the handle, a string
`value.error` maps through the wire-error table, any other body is
`InvalidResponse`, and a transport failure is `FailedRequest`. -/
def get_selected_tab_id_classify (r : Response) : Except WebdriverError String :=
  match r with
  | .transportFail => .error .FailedRequest
  | .noText => .error .InvalidResponse
  | .unparsable => .error .InvalidResponse
  | .body j =>
    if (j.get "value").isString then
      .ok (j.get "value").toStr
    else if ((j.get "value").get "error").isString then
      .error (WebdriverError.fromWire ((j.get "value").get "error").toStr)
    else .error .InvalidResponse

/-- Timeouts triple (spec section 3; `timeouts.rs` is not under `src/`):
optional script timeout, required page-load and implicit-wait timeouts. -/
structure Timeouts where
  script : Option Nat
  page_load : Nat
  implicit : Nat
deriving DecidableEq

/-- Read-response block of `Session::get_timeouts` (src/src/session.rs lines
352-380). The source's `.as_usize().unwrap()` is guarded by `is_number`; with
integer numbers it could still fail on a negative value, rendered here as a
default of 0 (no claim depends on that corner). -/
def get_timeouts_classify (r : Response) : Except WebdriverError Timeouts :=
  match r with
  | .transportFail => .error .FailedRequest
  | .noText => .error .InvalidResponse
  | .unparsable => .error .InvalidResponse
  | .body j =>
    if ((j.get "value").get "pageLoad").isNumber
        && ((j.get "value").get "implicit").isNumber then
      .ok { script := ((j.get "value").get "script").asUsize,
            page_load := (((j.get "value").get "pageLoad").asUsize).getD 0,
            implicit := (((j.get "value").get "implicit").asUsize).getD 0 }
    else if ((j.get "value").get "error").isString then
      .error (WebdriverError.fromWire ((j.get "value").get "error").toStr)
    else .error .InvalidResponse

/-- Read-response block of `Session::set_timeouts` (src/src/session.rs lines
403-427): a null `value` is success, a string `value.error` maps through the
wire-error table, any other body is `InvalidResponse`, and a transport failure
is `FailedRequest`. -/
def set_timeouts_classify (r : Response) : Except WebdriverError Unit :=
  match r with
  | .transportFail => .error .FailedRequest
  | .noText => .error .InvalidResponse
  | .unparsable => .error .InvalidResponse
  | .body j =>
    if (j.get "value").isNull then .ok ()
    else if ((j.get "value").get "error").isString then
      .error (WebdriverError.fromWire ((j.get "value").get "error").toStr)
    else .error .InvalidResponse

/-- Read-response block of `Tab::navigate` (src/tab.rs lines 118-142): a null
`value` is success, a string `value.error` maps through the wire-error table,
any other body is `InvalidResponse`, and a transport failure is
`FailedRequest`. -/
def navigate_classify (r : Response) : Except WebdriverError Unit :=
  match r with
  | .transportFail => .error .FailedRequest
  | .noText => .error .InvalidResponse
  | .unparsable => .error .InvalidResponse
  | .body j =>
    if (j.get "value").isNull then .ok ()
    else if ((j.get "value").get "error").isString then
      .error (WebdriverError.fromWire ((j.get "value").get "error").toStr)
    else .error .InvalidResponse

/-- Read-response block of `Tab::back` (src/tab.rs lines 353-377), identical
to the one of `navigate`. -/
def back_classify (r : Response) : Except WebdriverError Unit :=
  match r with
  | .transportFail => .error .FailedRequest
  | .noText => .error .InvalidResponse
  | .unparsable => .error .InvalidResponse
  | .body j =>
    if (j.get "value").isNull then .ok ()
    else if ((j.get "value").get "error").isString then
      .error (WebdriverError.fromWire ((j.get "value").get "error").toStr)
    else .error .InvalidResponse

/-- Read-response block of `Tab::forward` (src/tab.rs lines 400-424),
identical to the one of `navigate`. -/
def forward_classify (r : Response) : Except WebdriverError Unit :=
  match r with
  | .transportFail => .error .FailedRequest
  | .noText => .error .InvalidResponse
  | .unparsable => .error .InvalidResponse
  | .body j =>
    if (j.get "value").isNull then .ok ()
    else if ((j.get "value").get "error").isString then
      .error (WebdriverError.fromWire ((j.get "value").get "error").toStr)
    else .error .InvalidResponse

/-- Read-response block of `Tab::refresh` (src/tab.rs lines 447-471),
identical to the one of `navigate`. -/
def refresh_classify (r : Response) : Except WebdriverError Unit :=
  match r with
  | .transportFail => .error .FailedRequest
  | .noText => .error .InvalidResponse
  | .unparsable => .error .InvalidResponse
  | .body j =>
    if (j.get "value").isNull then .ok ()
    else if ((j.get "value").get "error").isString then
      .error (WebdriverError.fromWire ((j.get "value").get "error").toStr)
    else .error .InvalidResponse

/-- Read-response block of `Tab::execute_script` (src/tab.rs lines 497-521),
identical to the one of `navigate`. -/
def execute_script_classify (r : Response) : Except WebdriverError Unit :=
  match r with
  | .transportFail => .error .FailedRequest
  | .noText => .error .InvalidResponse
  | .unparsable => .error .InvalidResponse
  | .body j =>
    if (j.get "value").isNull then .ok ()
    else if ((j.get "value").get "error").isString then
      .error (WebdriverError.fromWire ((j.get "value").get "error").toStr)
    else .error .InvalidResponse

/-- Read-response block of the switch POST inside `Tab::select` (src/tab.rs
lines 69-93), identical to the one of `navigate`. -/
def select_post_classify (r : Response) : Except WebdriverError Unit :=
  match r with
  | .transportFail => .error .FailedRequest
  | .noText => .error .InvalidResponse
  | .unparsable => .error .InvalidResponse
  | .body j =>
    if (j.get "value").isNull then .ok ()
    else if ((j.get "value").get "error").isString then
      .error (WebdriverError.fromWire ((j.get "value").get "error").toStr)
    else .error .InvalidResponse

/-- Read-response block of `Tab::close` (src/tab.rs lines 163-184): any parsed
body without a string `value.error` is success (there is no null check on
`value` here), a string `value.error` maps through the wire-error table, an
unparsable or unreadable body is `InvalidResponse`, and a transport failure is
`FailedRequest`. -/
def close_classify (r : Response) : Except WebdriverError Unit :=
  match r with
  | .transportFail => .error .FailedRequest
  | .noText => .error .InvalidResponse
  | .unparsable => .error .InvalidResponse
  | .body j =>
    if ((j.get "value").get "error").isString then
      .error (WebdriverError.fromWire ((j.get "value").get "error").toStr)
    else .ok ()

/-- The W3C element-identifier key used by `Tab::find`. -/
def elementKey : String := "element-6066-11e4-a52e-4f735466cecf"

/-- Read-response block of `Tab::find` (src/tab.rs lines 210-240): a non-null
element-identifier entry under `value` is success carrying the handle (checked
first); otherwise a string `value.error` maps through the wire-error table,
with the `NoSuchElement` variant downgraded to `Ok none`; any other body is
`InvalidResponse`, and a transport failure is `FailedRequest`. -/
def find_classify (r : Response) : Except WebdriverError (Option String) :=
  match r with
  | .transportFail => .error .FailedRequest
  | .noText => .error .InvalidResponse
  | .unparsable => .error .InvalidResponse
  | .body j =>
    if !((j.get "value").get elementKey).isNull then
      .ok (some ((j.get "value").get elementKey).toStr)
    else if ((j.get "value").get "error").isString then
      let e := WebdriverError.fromWire ((j.get "value").get "error").toStr
      if e = .NoSuchElement then .ok none else .error e
    else .error .InvalidResponse

/-- Modelled from the spec: the browsers the crate drives (`enums.rs` is not
under `src/`; spec section 1 names Firefox and Chrome). -/
inductive Browser where
  | Firefox
  | Chrome
deriving DecidableEq

/-- Modelled from the spec: the browser name placed in `browserName` by
`browser.to_string()` (in the missing `enums.rs`). No claim depends on the
exact strings. -/
def Browser.toStr : Browser → String
  | .Firefox => "firefox"
  | .Chrome => "chrome"

/-- Compile-time platform family, standing for the `cfg!(unix)` /
`cfg!(windows)` tests of `Session::new` (src/src/session.rs lines 30 and 67).
Per spec section 4.3 step 4, `Platform::current()` (in the missing `enums.rs`)
recognises exactly the Unix and Windows identifiers, so `otherOS` is the case
where it yields the unknown platform. -/
inductive OSFamily where
  | unixLike
  | windows
  | otherOS
deriving DecidableEq

/-- `Session::new_session` (src/src/session.rs lines 112-228) as a function of
the platform family and the outcome of the POST to `/session`: on an
unidentified platform it fails with `UnsupportedPlatform` before any network
call (`Platform::current`, modelled from spec section 4.3 step 4); otherwise
the response is classified. The local HTTP-client construction failure (line
123, a `Custom` error) is assumed not to occur. -/
def new_session_model (os : OSFamily) (r : Response) : Except WebdriverError String :=
  match os with
  | .otherOS => .error .UnsupportedPlatform
  | _ => new_session_classify r

/-- `Session::new` (src/src/session.rs lines 24-110): run the first creation
attempt; if and only if it failed with `FailedRequest`, on a Unix-like build
spawn `./geckodriver` or `./chromedriver`, on a Windows build spawn
`geckodriver.exe` or `chromedriver.exe`, and retry the creation once,
returning the retried outcome whatever it is; in every other case return the
first outcome untouched. The result records the final outcome, the list of
spawned executables, and the number of creation attempts made. -/
def Session.new_model (os : OSFamily) (browser : Browser) (first retry : Response) :
    Except WebdriverError String × List String × Nat :=
  match new_session_model os first with
  | .error .FailedRequest =>
    match os, browser with
    | .unixLike, .Firefox => (new_session_model os retry, ["./geckodriver"], 2)
    | .unixLike, .Chrome => (new_session_model os retry, ["./chromedriver"], 2)
    | .windows, .Firefox => (new_session_model os retry, ["geckodriver.exe"], 2)
    | .windows, .Chrome => (new_session_model os retry, ["chromedriver.exe"], 2)
    | .otherOS, _ => (.error .FailedRequest, [], 1)
  | r => (r, [], 1)

/-- The capability payload built by `Session::new_session` (src/src/session.rs
lines 135-195). In this source variant headless mode is tied to the build
configuration: `headless` stands for `!cfg!(debug_assertions)` (release builds
request headless, debug builds do not). `platform` is the string produced by
`platform.to_string()`. The third source branch (a browser that is neither
Firefox nor Chrome) is unreachable with the two-browser enumeration of the
spec. -/
def post_data (platform : String) (browser : Browser) (headless : Bool) : Json :=
  match browser, headless with
  | .Firefox, false =>
    .obj [("capabilities", .obj [
      ("alwaysMatch", .obj [
        ("platformName", .str platform),
        ("browserName", .str Browser.Firefox.toStr),
        ("moz:webdriverClick", .bool false)]),
      ("moz:webdriverClick", .bool false)])]
  | .Firefox, true =>
    .obj [("capabilities", .obj [
      ("alwaysMatch", .obj [
        ("platformName", .str platform),
        ("browserName", .str Browser.Firefox.toStr),
        ("moz:firefoxOptions", .obj [("args", .arr [.str "-headless"])])]),
      ("moz:webdriverClick", .bool false)])]
  | .Chrome, false =>
    .obj [("capabilities", .obj [
      ("alwaysMatch", .obj [
        ("platformName", .str platform),
        ("browserName", .str Browser.Chrome.toStr)])])]
  | .Chrome, true =>
    .obj [("capabilities", .obj [
      ("alwaysMatch", .obj [
        ("platformName", .str platform),
        ("browserName", .str Browser.Chrome.toStr),
        ("goog:chromeOptions", .obj [("args", .arr [.str "-headless"])])])])]

/-- `Tab::select` (src/tab.rs lines 48-94): first GET the currently selected
window id; when that succeeds and the id equals the tab's id, return `Ok`
without issuing the switch POST; in every other case (mismatching id, or any
failure of the GET) issue the switch POST and classify its response. The
boolean records whether the switch POST was issued. -/
def select_model (tabId : String) (getResp postResp : Response) :
    Except WebdriverError Unit × Bool :=
  match get_selected_tab_id_classify getResp with
  | .ok id =>
    if id = tabId then (.ok (), false)
    else (select_post_classify postResp, true)
  | .error _ => (select_post_classify postResp, true)

/-- `Session::get_all_tabs` (src/src/session.rs lines 234-284) including its
session-id guard (lines 238-243): with no session id it returns
`NoSuchWindow` before any request is sent. The boolean records whether the
request was issued. -/
def get_all_tabs_model (sid : Option String) (r : Response) :
    Except WebdriverError (List String) × Bool :=
  match sid with
  | none => (.error .NoSuchWindow, false)
  | some _ => (get_all_tabs_classify r, true)

/-- `Session::get_selected_tab_id` (src/src/session.rs lines 291-332)
including its session-id guard (lines 293-298). The boolean records whether
the request was issued. -/
def get_selected_tab_id_model (sid : Option String) (r : Response) :
    Except WebdriverError String × Bool :=
  match sid with
  | none => (.error .NoSuchWindow, false)
  | some _ => (get_selected_tab_id_classify r, true)

/-- `Session::get_timeouts` (src/src/session.rs lines 334-381) including its
session-id guard (lines 338-343). The boolean records whether the request was
issued. -/
def get_timeouts_model (sid : Option String) (r : Response) :
    Except WebdriverError Timeouts × Bool :=
  match sid with
  | none => (.error .NoSuchWindow, false)
  | some _ => (get_timeouts_classify r, true)

/-- `Session::set_timeouts` (src/src/session.rs lines 383-428) including its
session-id guard (lines 387-392); `t` is the timeouts payload to be posted,
unused when the guard fires. The boolean records whether the request was
issued. -/
def set_timeouts_model (sid : Option String) (t : Timeouts) (r : Response) :
    Except WebdriverError Unit × Bool :=
  match sid, t with
  | none, _ => (.error .NoSuchWindow, false)
  | some _, _ => (set_timeouts_classify r, true)

/-- Claim C1: for every session-creation request, the serialized capabilities
payload contains no vendor-options key (`moz:firefoxOptions` or
`goog:chromeOptions`) when headless is not requested; when headless is
requested it contains exactly one occurrence of the single vendor key matching
the browser (`moz:firefoxOptions` for Firefox, `goog:chromeOptions` for
Chrome), located under `capabilities.alwaysMatch` and carrying
`args == ["-headless"]`, and no occurrence of the other browser's vendor key. -/
theorem c1_capability_vendor_keys (platform : String) :
    (Json.countKey "moz:firefoxOptions" (post_data platform .Firefox false) = 0
      ∧ Json.countKey "goog:chromeOptions" (post_data platform .Firefox false) = 0
      ∧ Json.countKey "moz:firefoxOptions" (post_data platform .Chrome false) = 0
      ∧ Json.countKey "goog:chromeOptions" (post_data platform .Chrome false) = 0)
  ∧ (Json.countKey "moz:firefoxOptions" (post_data platform .Firefox true) = 1
      ∧ Json.countKey "goog:chromeOptions" (post_data platform .Firefox true) = 0
      ∧ (((post_data platform .Firefox true).get "capabilities").get "alwaysMatch").get
          "moz:firefoxOptions" = Json.obj [("args", Json.arr [Json.str "-headless"])])
  ∧ (Json.countKey "goog:chromeOptions" (post_data platform .Chrome true) = 1
      ∧ Json.countKey "moz:firefoxOptions" (post_data platform .Chrome true) = 0
      ∧ (((post_data platform .Chrome true).get "capabilities").get "alwaysMatch").get
          "goog:chromeOptions" = Json.obj [("args", Json.arr [Json.str "-headless"])]) :=
  ⟨⟨rfl, rfl, rfl, rfl⟩, ⟨rfl, rfl, rfl⟩, ⟨rfl, rfl, rfl⟩⟩

/-- Claim C2 (code bug): on the handles response
`value.handles == ["h0", "h1"]` the source's collection loop, which
increments `i` before pushing `handles[i]`, returns the tab ids
`["h1", "null"]` — the first handle is skipped and the `to_string()` of the
out-of-range `Null` is appended — instead of the `["h0", "h1"]` the claim
(one Tab per handle, ids equal to the handles in order) requires. -/
theorem c2_get_all_tabs_off_by_one :
    get_all_tabs_classify (.body (.obj [("value", .obj [("handles",
        .arr [.str "h0", .str "h1"])])]))
      = .ok ["h1", "null"] := rfl

/-- Claim C3: when the first creation attempt fails at the transport level
(`FailedRequest`), exactly one driver executable is spawned and exactly one
retry is made, whose outcome — success or error — becomes the result; when the
first attempt yields anything else (success or a protocol error), that outcome
is returned with zero spawns and no retry. A first-attempt transport failure
forces a recognised platform, since an unrecognised one fails with
`UnsupportedPlatform` before any request. -/
theorem c3_fallback_launch_sequence (os : OSFamily) (b : Browser) (first retry : Response) :
    (new_session_model os first = .error .FailedRequest →
        (Session.new_model os b first retry).1 = new_session_model os retry
          ∧ (Session.new_model os b first retry).2.1.length = 1
          ∧ (Session.new_model os b first retry).2.2 = 2)
  ∧ (new_session_model os first ≠ .error .FailedRequest →
        Session.new_model os b first retry = (new_session_model os first, [], 1)) := by
  constructor
  · intro h
    cases os with
    | otherOS => simp [new_session_model] at h
    | unixLike => cases b <;> simp [Session.new_model, h]
    | windows => cases b <;> simp [Session.new_model, h]
  · intro h
    unfold Session.new_model
    cases h2 : new_session_model os first with
    | ok a => rfl
    | error e => cases e <;> first | rfl | exact absurd h2 h

/-- Witness for C3: a Unix-like Firefox creation whose first attempt is a
transport failure and whose retry succeeds spawns one executable, makes two
attempts, and returns the retried outcome. -/
theorem c3_witness :
    (Session.new_model .unixLike .Firefox .transportFail
        (.body (.obj [("value", .obj [("sessionId", .str "abc")])]))).1
      = new_session_model .unixLike (.body (.obj [("value", .obj [("sessionId", .str "abc")])]))
    ∧ (Session.new_model .unixLike .Firefox .transportFail
        (.body (.obj [("value", .obj [("sessionId", .str "abc")])]))).2.1.length = 1
    ∧ (Session.new_model .unixLike .Firefox .transportFail
        (.body (.obj [("value", .obj [("sessionId", .str "abc")])]))).2.2 = 2 :=
  (c3_fallback_launch_sequence .unixLike .Firefox .transportFail
    (.body (.obj [("value", .obj [("sessionId", .str "abc")])]))).1 rfl

/-- Claim C4 fails as stated: on a Windows build — a platform that is not
Unix-like — a first-attempt transport failure does spawn a driver process
(`geckodriver.exe`), so the spawn list is not empty. -/
theorem c4_counterexample :
    (Session.new_model .windows .Firefox .transportFail .transportFail).2.1
        = ["geckodriver.exe"]
      ∧ (Session.new_model .windows .Firefox .transportFail .transportFail).2.1 ≠ [] :=
  ⟨rfl, by decide⟩

/-- Claim C4 as amended: the fallback spawn happens on Unix-like and on
Windows builds alike; only on a platform recognised as neither is no driver
ever spawned (there the first attempt fails with `UnsupportedPlatform` before
any POST, so a transport failure cannot arise). -/
theorem c4_amended_launch_platforms (b : Browser) (first retry : Response) :
    (Session.new_model .otherOS b first retry).2.1 = []
  ∧ (new_session_model .windows first = .error .FailedRequest →
      (Session.new_model .windows b first retry).2.1.length = 1)
  ∧ (new_session_model .unixLike first = .error .FailedRequest →
      (Session.new_model .unixLike b first retry).2.1.length = 1) := by
  refine ⟨rfl, ?_, ?_⟩
  · intro h; cases b <;> simp [Session.new_model, h]
  · intro h; cases b <;> simp [Session.new_model, h]

/-- Witness for the amended C4: no spawn on an unidentified platform; one
spawn on a Windows build whose first attempt is a transport failure. -/
theorem c4_amended_witness :
    (Session.new_model .otherOS .Firefox .transportFail .transportFail).2.1 = []
      ∧ (Session.new_model .windows .Firefox .transportFail .transportFail).2.1.length = 1 :=
  ⟨(c4_amended_launch_platforms .Firefox .transportFail .transportFail).1,
   (c4_amended_launch_platforms .Firefox .transportFail .transportFail).2.1 rfl⟩

/-- Claim C5: in `find`, a body whose `value` carries the element-identifier
key yields `Ok (some handle)` with that handle; a body classified as a
protocol error (element key absent, `value.error` a string) yields `Ok none`
when the error string maps to `NoSuchElement`, and the mapped typed error for
every other protocol error. -/
theorem c5_find_classification (j : Json) :
    (((j.get "value").get elementKey).isNull = false →
        find_classify (.body j) = .ok (some ((j.get "value").get elementKey).toStr))
  ∧ (((j.get "value").get elementKey).isNull = true →
      ((j.get "value").get "error").isString = true →
      WebdriverError.fromWire ((j.get "value").get "error").toStr = .NoSuchElement →
      find_classify (.body j) = .ok none)
  ∧ (∀ e : WebdriverError,
      ((j.get "value").get elementKey).isNull = true →
      ((j.get "value").get "error").isString = true →
      WebdriverError.fromWire ((j.get "value").get "error").toStr = e →
      e ≠ .NoSuchElement →
      find_classify (.body j) = .error e) := by
  refine ⟨?_, ?_, ?_⟩
  · intro h; simp [find_classify, h]
  · intro h1 h2 h3; simp [find_classify, h1, h2, h3]
  · intro e h1 h2 h3 h4; simp [find_classify, h1, h2, h3, h4]

/-- Witness for C5: the wire response carrying error "no such element" is
downgraded by `find` to `Ok none`. -/
theorem c5_witness :
    find_classify (.body (.obj [("value", .obj [("error", .str "no such element")])]))
      = .ok none :=
  (c5_find_classification (.obj [("value", .obj [("error", .str "no such element")])])).2.1
    rfl rfl rfl

/-- Claim C6: the six null-success commands (navigate, back, forward, refresh,
execute_script, set_timeouts) share one response classification, which is
exactly three-way: a null `value` is success; a string `value.error` is the
typed error mapped from that string; every other parse outcome — an
unreadable or non-JSON body, or a `value` neither null nor carrying a string
`error` — is `InvalidResponse`. -/
theorem c6_null_success_classification :
    (back_classify = navigate_classify ∧ forward_classify = navigate_classify
      ∧ refresh_classify = navigate_classify ∧ execute_script_classify = navigate_classify
      ∧ set_timeouts_classify = navigate_classify)
  ∧ (∀ j : Json,
      ((j.get "value").isNull = true → navigate_classify (.body j) = .ok ())
      ∧ ((j.get "value").isNull = false → ((j.get "value").get "error").isString = true →
          navigate_classify (.body j)
            = .error (WebdriverError.fromWire ((j.get "value").get "error").toStr))
      ∧ ((j.get "value").isNull = false → ((j.get "value").get "error").isString = false →
          navigate_classify (.body j) = .error .InvalidResponse))
  ∧ navigate_classify .unparsable = .error .InvalidResponse
  ∧ navigate_classify .noText = .error .InvalidResponse := by
  refine ⟨⟨rfl, rfl, rfl, rfl, rfl⟩, ?_, rfl, rfl⟩
  intro j
  refine ⟨?_, ?_, ?_⟩
  · intro h; simp [navigate_classify, h]
  · intro h1 h2; simp [navigate_classify, h1, h2]
  · intro h1 h2; simp [navigate_classify, h1, h2]

/-- Witness for C6: a null `value` succeeds, the "no such element" error body
maps to the `NoSuchElement` typed error through `navigate`, and a non-JSON
body is `InvalidResponse`. -/
theorem c6_witness :
    navigate_classify (.body (.obj [("value", Json.null)])) = .ok ()
      ∧ navigate_classify (.body (.obj [("value", .obj [("error", .str "no such element")])]))
          = .error .NoSuchElement
      ∧ navigate_classify .unparsable = .error .InvalidResponse :=
  ⟨(c6_null_success_classification.2.1 (.obj [("value", Json.null)])).1 rfl,
   ((c6_null_success_classification.2.1
      (.obj [("value", .obj [("error", .str "no such element")])])).2.1 rfl rfl).trans rfl,
   c6_null_success_classification.2.2.1⟩

/-- Claim C7: when the GET of the currently selected window id returns exactly
this tab's id, `select` returns `Ok` at once and the switch POST is not
issued. -/
theorem c7_select_skips_post_when_selected (tabId : String) (getResp postResp : Response)
    (h : get_selected_tab_id_classify getResp = .ok tabId) :
    select_model tabId getResp postResp = (.ok (), false) := by
  simp [select_model, h]

/-- Witness for C7: selecting tab "t1" while the server reports "t1" as the
current window returns `Ok` with no switch POST, whatever the POST would have
answered. -/
theorem c7_witness :
    select_model "t1" (.body (.obj [("value", .str "t1")])) .transportFail = (.ok (), false) :=
  c7_select_skips_post_when_selected "t1" (.body (.obj [("value", .str "t1")]))
    .transportFail rfl

/-- Claim C8: for a `close` response that parses as JSON, success holds iff
`value.error` is not a string — in particular a non-null, non-error `value`
still counts as success. -/
theorem c8_close_success_iff_no_error_string (j : Json) :
    close_classify (.body j) = .ok () ↔ ((j.get "value").get "error").isString = false := by
  cases h : ((j.get "value").get "error").isString with
  | true => simp [close_classify, h]
  | false => simp [close_classify, h]

/-- Witness for C8: a close response whose `value` is a non-null, non-error
string is treated as success. -/
theorem c8_witness :
    close_classify (.body (.obj [("value", .str "still-open")])) = .ok () :=
  (c8_close_success_iff_no_error_string (.obj [("value", .str "still-open")])).mpr rfl

/-- Claim C9: every id-using session operation (get_all_tabs,
get_selected_tab_id, get_timeouts, set_timeouts) on a session without an id
returns `NoSuchWindow` immediately, with no request issued, whatever the
network would have answered. -/
theorem c9_missing_session_id_fails_fast (r : Response) (t : Timeouts) :
    get_all_tabs_model none r = (.error .NoSuchWindow, false)
  ∧ get_selected_tab_id_model none r = (.error .NoSuchWindow, false)
  ∧ get_timeouts_model none r = (.error .NoSuchWindow, false)
  ∧ set_timeouts_model none t r = (.error .NoSuchWindow, false) :=
  ⟨rfl, rfl, rfl, rfl⟩

/-- Claim C10: when the GET of the currently selected window id fails with any
error (transport or protocol), `select` does not propagate that failure: it
issues the switch POST and its result is exactly the POST's classification. -/
theorem c10_select_ignores_get_failure (tabId : String) (getResp postResp : Response)
    (e : WebdriverError) (h : get_selected_tab_id_classify getResp = .error e) :
    select_model tabId getResp postResp = (select_post_classify postResp, true) := by
  simp [select_model, h]

/-- Witness for C10: with the current-window GET failing at the transport
level and the switch POST answering a null `value`, `select` succeeds and the
POST was issued. -/
theorem c10_witness :
    select_model "t1" .transportFail (.body (.obj [("value", Json.null)])) = (.ok (), true) :=
  (c10_select_ignores_get_failure "t1" .transportFail (.body (.obj [("value", Json.null)]))
    .FailedRequest rfl).trans rfl
